import Mathlib

/-!
Verification of the token-verification core of cloudfire-auth
(src/rest-api/verify-id-token.ts) against its specification.

The TypeScript source is shallowly embedded: JSON claim values are
modelled by `JSValue` (JavaScript truthiness and numeric coercion are
made explicit), machine time is a `Nat` of milliseconds, and every
external effect of the original async code (Cloudflare KV get/put, the
key-set fetch, the jose signature check, and the account-lookup call)
is supplied through an explicit environment and recorded in an ordered
event trace.  Numbers are modelled as integers; JSON fractional
numbers, arrays and objects as claim values are outside the modelled
domain.
-/

namespace CloudfireAuth

/-- A JavaScript value as it can appear in a decoded JWT claim:
absent (`undefined`), `null`, a boolean, an (integer) number, or a
string. -/
inductive JSValue where
  | undef
  | null
  | bool (b : Bool)
  | num (n : Int)
  | str (s : String)
deriving DecidableEq

/-- JavaScript truthiness of a claim value. -/
def jsTruthy : JSValue → Bool
  | .undef => false
  | .null => false
  | .bool b => b
  | .num n => n ≠ 0
  | .str s => s ≠ ""

/-- Embeds the JavaScript test `typeof v === "string"`. -/
def isString : JSValue → Bool
  | .str _ => true
  | _ => false

/-- Embeds the JavaScript test `typeof v === "number"`. -/
def isNumber : JSValue → Bool
  | .num _ => true
  | _ => false

/-- Numeric value of a digit list (most significant first). -/
def digitsVal (cs : List Char) : Nat :=
  cs.foldl (fun a c => a * 10 + (c.toNat - 48)) 0

/-- Whole-string integer reading used by `jsStringToNumber`: every
character must be a digit, otherwise the result is NaN (`none`). -/
def allDigitsVal (cs : List Char) : Option Int :=
  if cs ≠ [] ∧ cs.all Char.isDigit then some (digitsVal cs) else none

/-- Characters of a string with surrounding whitespace removed
(structural model of `String.trim`). -/
def trimChars (cs : List Char) : List Char :=
  ((cs.dropWhile Char.isWhitespace).reverse.dropWhile Char.isWhitespace).reverse

/-- JavaScript `Number(s)` restricted to integer numerals: the trimmed
string must be empty (value 0) or an optionally signed digit string;
anything else is NaN (`none`). -/
def jsStringToNumber (s : String) : Option Int :=
  match trimChars s.data with
  | [] => some 0
  | '-' :: rest => (allDigitsVal rest).map (fun n => -(n : Int))
  | '+' :: rest => allDigitsVal rest
  | cs => allDigitsVal cs

/-- JavaScript `ToNumber` on a claim value; `none` models NaN. -/
def jsToNumber : JSValue → Option Int
  | .undef => none
  | .null => some 0
  | .bool b => some (if b then 1 else 0)
  | .num n => some n
  | .str s => jsStringToNumber s

/-- The comparison `v < t` between a claim value and a number, as
JavaScript evaluates it (NaN compares false). -/
def jsLtNum (v : JSValue) (t : Int) : Bool :=
  match jsToNumber v with
  | some n => n < t
  | none => false

/-- The comparison `v > t` between a claim value and a number, as
JavaScript evaluates it (NaN compares false). -/
def jsGtNum (v : JSValue) (t : Int) : Bool :=
  match jsToNumber v with
  | some n => n > t
  | none => false

/-- The comparison `a > v` between a possibly-NaN number and a claim
value, as JavaScript evaluates it. -/
def numGtJs (a : Option Int) (v : JSValue) : Bool :=
  match a, jsToNumber v with
  | some x, some y => x > y
  | _, _ => false

/-- Template-literal interpolation `String(v)` of a claim value. -/
def jsToDisplayString : JSValue → String
  | .undef => "undefined"
  | .null => "null"
  | .bool b => if b then "true" else "false"
  | .num n => toString n
  | .str s => s

/-- Digit-characters value of the longest digit run at the front. -/
def digitRun (cs : List Char) (neg : Bool) : Option Int :=
  match cs.takeWhile Char.isDigit with
  | [] => none
  | ds => some (if neg then -(digitsVal ds : Int) else (digitsVal ds : Int))

/-- JavaScript `parseInt(s)`: skip leading whitespace, read an
optional sign and then the longest digit run, ignoring whatever
follows; no digits gives NaN (`none`). -/
def parseIntJS (s : String) : Option Int :=
  match s.data.dropWhile Char.isWhitespace with
  | '-' :: rest => digitRun rest true
  | '+' :: rest => digitRun rest false
  | cs => digitRun cs false

/-- The decoded JWT payload (`decodeJwt`): the claims inspected by the
verification core, each an arbitrary JavaScript value. -/
structure DecodedIdToken where
  aud : JSValue := .undef
  sub : JSValue := .undef
  iss : JSValue := .undef
  exp : JSValue := .undef
  iat : JSValue := .undef
  auth_time : JSValue := .undef
deriving DecidableEq

/-- Result shape of the body and header validators. -/
structure ValidationResult where
  isValid : Bool
  errorMessage : Option String := none
deriving DecidableEq

/-- Embeds `Math.ceil(Date.now() / 1000)` with `nowMs = Date.now()`. -/
def currentUnixSeconds (nowMs : Nat) : Int :=
  ((nowMs + 999) / 1000 : Nat)

/-- Embeds `validateJwtBody` from verify-id-token.ts.  The token body
is already decoded; `nowMs` stands for `Date.now()`. -/
def validateJwtBody (body : DecodedIdToken) (projectId : String) (nowMs : Nat) :
    ValidationResult :=
  if body.aud ≠ JSValue.str projectId then
    { isValid := false
      errorMessage := some ("Token audience does not match project ID, expected "
        ++ projectId ++ ", got " ++ jsToDisplayString body.aud) }
  else if ¬ isString body.sub then
    { isValid := false, errorMessage := some "Token subject is not a string" }
  else if body.sub = JSValue.str "" then
    { isValid := false, errorMessage := some "Token subject is empty" }
  else if body.iss ≠ JSValue.str ("https://securetoken.google.com/" ++ projectId) then
    { isValid := false
      errorMessage := some ("Token issuer does not match project ID, expected https://securetoken.google.com/"
        ++ projectId ++ ", got " ++ jsToDisplayString body.iss) }
  else
    let currentTime := currentUnixSeconds nowMs
    if jsTruthy body.exp ∧ jsLtNum body.exp currentTime then
      { isValid := false, errorMessage := some "Token expiration date is in the past" }
    else if jsTruthy body.iat ∧ jsGtNum body.iat currentTime then
      { isValid := false, errorMessage := some "Token issued at date is in the future" }
    else if jsTruthy body.auth_time ∧ ¬ isNumber body.auth_time then
      { isValid := false, errorMessage := some "Token auth time is not a number" }
    else if jsGtNum body.auth_time currentTime then
      { isValid := false, errorMessage := some "Token auth time is in the future" }
    else
      { isValid := true }

/-- Spec-side description (section 4.1 of the spec): the eight body
checks in their stated order, each a failure condition paired with its
error message.  Presence of a time claim is JavaScript truthiness, the
reading pinned down by the code (see the zero-claim behaviour). -/
def bodyChecks (body : DecodedIdToken) (projectId : String) (nowMs : Nat) :
    List (Bool × String) :=
  let currentTime := currentUnixSeconds nowMs
  [ (decide (body.aud ≠ JSValue.str projectId),
      "Token audience does not match project ID, expected " ++ projectId
        ++ ", got " ++ jsToDisplayString body.aud),
    (decide (¬ isString body.sub), "Token subject is not a string"),
    (decide (body.sub = JSValue.str ""), "Token subject is empty"),
    (decide (body.iss ≠ JSValue.str ("https://securetoken.google.com/" ++ projectId)),
      "Token issuer does not match project ID, expected https://securetoken.google.com/"
        ++ projectId ++ ", got " ++ jsToDisplayString body.iss),
    (decide (jsTruthy body.exp ∧ jsLtNum body.exp currentTime),
      "Token expiration date is in the past"),
    (decide (jsTruthy body.iat ∧ jsGtNum body.iat currentTime),
      "Token issued at date is in the future"),
    (decide (jsTruthy body.auth_time ∧ ¬ isNumber body.auth_time),
      "Token auth time is not a number"),
    (decide (jsGtNum body.auth_time currentTime), "Token auth time is in the future") ]

/-- Spec-side first-failure-wins evaluator over an ordered check list. -/
def firstFailure : List (Bool × String) → ValidationResult
  | [] => { isValid := true }
  | (failed, msg) :: rest =>
      if failed then { isValid := false, errorMessage := some msg }
      else firstFailure rest

/-- One external effect performed during verification, in order of
occurrence: a KV cache read or write, the key-set fetch from the
Google endpoint, the jose signature check, or the account lookup. -/
inductive IoEvent where
  | cacheGet (key : String)
  | cachePut (key : String) (value : String) (ttl : Int)
  | fetchKeys
  | verifySig
  | accountLookup
deriving DecidableEq

/-- The injected Cloudflare KV collaborator: `get` returns the stored
string or `none` (JavaScript `null`), and `putOutcome` is `some e`
when the next `put` call throws an error with message `e`. -/
structure KVNamespace where
  get : String → Option String
  putOutcome : Option String := none

/-- The decoded protected header (`decodeProtectedHeader`): `alg` and
`kid` are optional strings. -/
structure JwtHeader where
  alg : Option String := none
  kid : Option String := none
deriving DecidableEq

/-- A decodable JWT, abstracted to its decoded header and body. -/
structure Token where
  header : JwtHeader
  body : DecodedIdToken
deriving DecidableEq

/-- The raw HTTP response of the key-source endpoint: the JSON body as
a kid-to-certificate map and the cache-control header if present. -/
structure KeysFetchResponse where
  keys : String → Option String
  cacheControl : Option String := none

/-- Result of `getGooglePublicKeys`: the key map together with the
advertised cache duration in seconds (`none` models a NaN result of
`parseInt`). -/
structure GooglePublicKeysResponse where
  keys : String → Option String
  cache_duration : Option Int

/-- Structural model of the JavaScript `split("=")` used on the
cache-control header value. -/
def splitOnEqChar : List Char → List (List Char)
  | [] => [[]]
  | c :: rest =>
      let parts := splitOnEqChar rest
      if c = '=' then [] :: parts
      else
        match parts with
        | [] => [[c]]
        | p :: ps => (c :: p) :: ps

/-- Embeds `getGooglePublicKeys` from verify-id-token.ts: extracts the
value after the first `=` of the cache-control header and reads it
with `parseInt`; a missing or empty extract yields 0. -/
def getGooglePublicKeys (resp : KeysFetchResponse) : GooglePublicKeysResponse :=
  let cacheDuration : Option String :=
    resp.cacheControl.bind (fun s => ((splitOnEqChar s.data)[1]?).map String.mk)
  { keys := resp.keys
    cache_duration :=
      match cacheDuration with
      | some s => if s ≠ "" then parseIntJS s else some 0
      | none => some 0 }

/-- JavaScript truthiness of a string-or-null value. -/
def optTruthy : Option String → Bool
  | some s => s ≠ ""
  | none => false

/-- The comparison `d > 0` on a possibly-NaN number. -/
def optGtZero : Option Int → Bool
  | some n => n > 0
  | none => false

/-- Interpolation of the possibly-absent `kid` into a template literal
(JavaScript renders `undefined` for a missing value); the same string
is the property key used to index the fetched key map. -/
def kidString (h : JwtHeader) : String :=
  match h.kid with
  | some s => s
  | none => "undefined"

/-- Result shape of `validateJwtHeader`. -/
structure HeaderValidationResult where
  isValid : Bool
  errorMessage : Option String := none
  signingKey : Option String := none
deriving DecidableEq

/-- The remainder of `validateJwtHeader` after a cache miss (or with
no cache): fetch the key set, look up the kid, and on success store
the key in the cache when one is supplied and the advertised duration
is positive.  The `put` call is not guarded, so a failing put
propagates as a thrown error (`Except.error`). -/
def fetchAndCachePath (expectedKeyId kid : String) (kv : Option KVNamespace)
    (resp : KeysFetchResponse) (priorEvents : List IoEvent) :
    Except String HeaderValidationResult × List IoEvent :=
  let googlePublicKeys := getGooglePublicKeys resp
  let events := priorEvents ++ [IoEvent.fetchKeys]
  let signingKey := googlePublicKeys.keys kid
  if ¬ optTruthy signingKey then
    (Except.ok { isValid := false, errorMessage := some "Token key ID is not in the Google API" },
      events)
  else
    let key := signingKey.getD ""
    match kv with
    | some store =>
        if optGtZero googlePublicKeys.cache_duration then
          let events := events ++
            [IoEvent.cachePut expectedKeyId key (googlePublicKeys.cache_duration.getD 0)]
          match store.putOutcome with
          | some e => (Except.error e, events)
          | none => (Except.ok { isValid := true, signingKey := some key }, events)
        else (Except.ok { isValid := true, signingKey := some key }, events)
    | none => (Except.ok { isValid := true, signingKey := some key }, events)

/-- Embeds `validateJwtHeader` from verify-id-token.ts, with the event
trace of its external calls.  A thrown error is `Except.error`; the
`isValid` and `errorMessage` returns are `Except.ok`. -/
def validateJwtHeader (token : Token) (kv : Option KVNamespace) (resp : KeysFetchResponse) :
    Except String HeaderValidationResult × List IoEvent :=
  let h := token.header
  if h.alg ≠ some "RS256" then
    (Except.ok { isValid := false, errorMessage := some "Token algorithm is not RS256" }, [])
  else
    let expectedKeyId := "googlePublicKey-" ++ kidString h
    match kv with
    | some store =>
        let googlePublicKey := store.get expectedKeyId
        if optTruthy googlePublicKey then
          (Except.ok { isValid := true, signingKey := googlePublicKey },
            [IoEvent.cacheGet expectedKeyId])
        else
          fetchAndCachePath expectedKeyId (kidString h) kv resp [IoEvent.cacheGet expectedKeyId]
    | none => fetchAndCachePath expectedKeyId (kidString h) kv resp []

/-- Outcome of the jose primitives (`importX509` and `jwtVerify`),
supplied as an oracle since the cryptography is external: either the
verified payload is produced, or an error with the message of the
underlying library is thrown. -/
structure JoseEnv where
  jwtVerifyOk : Bool
  joseError : String := ""

/-- Result shape of `verifyToken`. -/
structure VerifyTokenResult where
  isValid : Bool
  payload : Option DecodedIdToken := none
deriving DecidableEq

/-- Embeds `verifyToken` from verify-id-token.ts.  Faithful to the
source: there is no catch around the jose calls and no branch that
returns `isValid := false` — on success the function returns
`isValid := true` with the decoded payload, and on failure the jose
error propagates as a thrown error. -/
def verifyToken (token : Token) (jose : JoseEnv) : Except String VerifyTokenResult :=
  if jose.jwtVerifyOk then
    Except.ok { isValid := true, payload := some token.body }
  else
    Except.error jose.joseError

/-- One record of the account-lookup response; `validSince` is absent
(`none`) or a string. -/
structure UserLookupRecord where
  validSince : Option String := none
deriving DecidableEq

/-- The JSON body returned by the account-lookup endpoint. -/
structure AccountLookupResponse where
  users : List UserLookupRecord
deriving DecidableEq

/-- Embeds `getTokenValidSinceTime` from verify-id-token.ts, given the
account-lookup response: throws unless `users[0]?.validSince` is
truthy, then returns `parseInt` of it (`none` models NaN). -/
def getTokenValidSinceTime (resp : AccountLookupResponse) : Except String (Option Int) :=
  let vs : Option String := resp.users[0]?.bind (fun u => u.validSince)
  if ¬ optTruthy vs then
    Except.error "Token valid since time is not a string"
  else
    Except.ok (parseIntJS (vs.getD ""))

/-- The collaborators of one `verifyIdTokenHandler` call: the optional
KV cache, the key-source response, the jose outcome, and the
account-lookup response. -/
structure Env where
  kv : Option KVNamespace := none
  keysResp : KeysFetchResponse
  jose : JoseEnv
  lookupResp : AccountLookupResponse := { users := [] }

/-- Embeds `verifyIdTokenHandler` from verify-id-token.ts, with the
ordered trace of external effects.  `checkRevoked` is the optional
boolean parameter (the source compares it with `=== true`); `nowMs`
stands for `Date.now()` during body validation. -/
def verifyIdTokenHandler (token : Token) (projectId : String) (env : Env)
    (checkRevoked : Option Bool) (nowMs : Nat) :
    Except String (Option DecodedIdToken) × List IoEvent :=
  let bodyRes := validateJwtBody token.body projectId nowMs
  if ¬ bodyRes.isValid then
    (Except.error (bodyRes.errorMessage.getD ""), [])
  else
    match validateJwtHeader token env.kv env.keysResp with
    | (Except.error e, events) => (Except.error e, events)
    | (Except.ok headerRes, events) =>
      if ¬ headerRes.isValid then
        (Except.error (headerRes.errorMessage.getD ""), events)
      else
        let events := events ++ [IoEvent.verifySig]
        match verifyToken token env.jose with
        | Except.error e => (Except.error e, events)
        | Except.ok vres =>
          if ¬ vres.isValid then
            (Except.error "Token is invalid", events)
          else if checkRevoked = some true then
            let events := events ++ [IoEvent.accountLookup]
            match getTokenValidSinceTime env.lookupResp with
            | Except.error e => (Except.error e, events)
            | Except.ok tokenValidSinceTime =>
              let iatClaim :=
                match vres.payload with
                | some p => p.iat
                | none => JSValue.undef
              if jsTruthy iatClaim ∧ numGtJs tokenValidSinceTime iatClaim then
                (Except.error "Token is revoked", events)
              else
                (Except.ok vres.payload, events)
          else
            (Except.ok vres.payload, events)

/-! Concrete inputs used by the counterexamples and witnesses below. -/

/-- A body whose claims pass every §4.1 check for project
`demo-project` at time 0. -/
def sampleBody : DecodedIdToken :=
  { aud := .str "demo-project", sub := .str "user-1",
    iss := .str "https://securetoken.google.com/demo-project" }

/-- An RS256 token with key id `kid1` over `sampleBody`. -/
def sampleToken : Token :=
  { header := { alg := some "RS256", kid := some "kid1" }, body := sampleBody }

/-- A key map holding a certificate for `kid1` only. -/
def sampleKeys : String → Option String :=
  fun k => if k = "kid1" then some "CERT" else none

/-- Environment whose jose layer throws the library error of a failed
signature check. -/
def sigFailEnv : Env :=
  { keysResp := { keys := sampleKeys }
    jose := { jwtVerifyOk := false, joseError := "signature verification failed" } }

/-! Claim theorems. -/

/-- Claim C1 (code bug): on a token that passes body validation and
key resolution but whose signature check fails, the handler rejects
with the underlying jose error message, not with the generic
"Token is invalid" that the documentation promises — `verifyToken`
never returns `isValid := false`, so the generic branch is dead. -/
theorem signature_failure_propagates_library_error :
    (verifyIdTokenHandler sampleToken "demo-project" sigFailEnv none 0).1 =
      Except.error "signature verification failed" ∧
    (verifyIdTokenHandler sampleToken "demo-project" sigFailEnv none 0).1 ≠
      Except.error "Token is invalid" := by
  constructor
  · rfl
  · intro hcontra
    have hval : (verifyIdTokenHandler sampleToken "demo-project" sigFailEnv none 0).1 =
        Except.error "signature verification failed" := rfl
    rw [hval] at hcontra
    exact absurd (Except.error.inj hcontra) (by decide)

/-- A first-failure evaluator validates exactly when no check fails. -/
theorem firstFailure_isValid_iff (l : List (Bool × String)) :
    (firstFailure l).isValid = true ↔ ∀ c ∈ l, c.1 = false := by
  induction l with
  | nil => simp [firstFailure]
  | cons hd tl ih =>
      obtain ⟨b, msg⟩ := hd
      cases b <;> simp [firstFailure, ih]

/-- Claim C2: `validateJwtBody` applies the eight §4.1 checks in
exactly the stated order with first-failure-wins semantics, returning
the failing check's exact message, and validates exactly when no
check fails. -/
theorem validateJwtBody_matches_ordered_checks (body : DecodedIdToken)
    (projectId : String) (nowMs : Nat) :
    validateJwtBody body projectId nowMs = firstFailure (bodyChecks body projectId nowMs) ∧
    ((validateJwtBody body projectId nowMs).isValid = true ↔
      ∀ c ∈ bodyChecks body projectId nowMs, c.1 = false) := by
  have hmain : validateJwtBody body projectId nowMs =
      firstFailure (bodyChecks body projectId nowMs) := by
    simp only [validateJwtBody, bodyChecks, firstFailure, decide_eq_true_eq]
  exact ⟨hmain, by rw [hmain]; exact firstFailure_isValid_iff _⟩

/-- Claim C7: when the first user record is missing or carries no
`validSince`, the revocation lookup throws its descriptive error
instead of returning a value. -/
theorem missing_validSince_raises (resp : AccountLookupResponse)
    (h : resp.users[0]? = none ∨ ∃ u, resp.users[0]? = some u ∧ u.validSince = none) :
    getTokenValidSinceTime resp = Except.error "Token valid since time is not a string" := by
  unfold getTokenValidSinceTime
  rcases h with h | ⟨u, hu, hv⟩
  · simp [h, optTruthy]
  · simp [hu, hv, optTruthy]

theorem missing_validSince_raises_witness :
    getTokenValidSinceTime { users := [] } =
      Except.error "Token valid since time is not a string" :=
  missing_validSince_raises { users := [] } (Or.inl rfl)

/-- Claim C8: when body validation fails, the handler rejects with the
body error message and the effect trace is empty — no cache access,
key fetch, signature check or account lookup happens. -/
theorem body_failure_short_circuits (token : Token) (projectId : String) (env : Env)
    (checkRevoked : Option Bool) (nowMs : Nat)
    (h : (validateJwtBody token.body projectId nowMs).isValid = false) :
    verifyIdTokenHandler token projectId env checkRevoked nowMs =
      (Except.error ((validateJwtBody token.body projectId nowMs).errorMessage.getD ""), []) := by
  unfold verifyIdTokenHandler
  simp [h]

/-- Token whose audience claim is absent, so body validation fails. -/
def wrongAudToken : Token :=
  { header := { alg := some "RS256", kid := some "kid1" }, body := {} }

theorem body_failure_short_circuits_witness :
    verifyIdTokenHandler wrongAudToken "demo-project" sigFailEnv none 0 =
      (Except.error
        ((validateJwtBody wrongAudToken.body "demo-project" 0).errorMessage.getD ""), []) :=
  body_failure_short_circuits wrongAudToken "demo-project" sigFailEnv none 0 rfl

/-- Claim C9: a token whose header algorithm is not RS256 fails header
validation with the fixed message before any cache access or network
fetch (empty trace), whatever its claims. -/
theorem non_rs256_rejected_immediately (token : Token) (kv : Option KVNamespace)
    (resp : KeysFetchResponse) (h : token.header.alg ≠ some "RS256") :
    validateJwtHeader token kv resp =
      (Except.ok { isValid := false, errorMessage := some "Token algorithm is not RS256" },
        []) := by
  unfold validateJwtHeader
  simp [h]

/-- An HS256 token over otherwise valid claims. -/
def hs256Token : Token :=
  { header := { alg := some "HS256", kid := some "kid1" }, body := sampleBody }

theorem non_rs256_rejected_immediately_witness :
    validateJwtHeader hs256Token (some { get := fun _ => none }) { keys := sampleKeys } =
      (Except.ok { isValid := false, errorMessage := some "Token algorithm is not RS256" },
        []) :=
  non_rs256_rejected_immediately hs256Token (some { get := fun _ => none })
    { keys := sampleKeys } (by decide)

/-- An RS256 token whose `iat` claim is the number 0. -/
def zeroIatToken : Token :=
  { header := { alg := some "RS256", kid := some "kid1" }
    body := { sampleBody with iat := JSValue.num 0 } }

/-- Environment where the signature check passes and the account
lookup reports `validSince` of 1 second. -/
def zeroIatEnv : Env :=
  { keysResp := { keys := sampleKeys }
    jose := { jwtVerifyOk := true }
    lookupResp := { users := [{ validSince := some "1" }] } }

/-- Claim C3 counterexample: a cryptographically valid token with
`iat = 0` is accepted with `checkRevoked` even though the fetched
`validSince` (1) is strictly greater than `iat` (0): the revocation
guard tests `iat` for truthiness, so a zero `iat` skips it. -/
theorem revocation_missed_when_iat_zero :
    getTokenValidSinceTime zeroIatEnv.lookupResp = Except.ok (some 1) ∧
    zeroIatToken.body.iat = JSValue.num 0 ∧
    numGtJs (some 1) zeroIatToken.body.iat = true ∧
    (verifyIdTokenHandler zeroIatToken "demo-project" zeroIatEnv (some true) 0).1 =
      Except.ok (some zeroIatToken.body) :=
  ⟨rfl, rfl, rfl, rfl⟩

/-- Claim C3 amended: with `checkRevoked`, a token that reached the
revocation step is rejected with "Token is revoked" exactly when its
`iat` is truthy and the fetched `validSince` is strictly greater than
it; otherwise (including any `validSince` at or below `iat`, and any
falsy `iat`) the decoded claims are returned. -/
theorem revoked_iff_truthy_iat_and_validSince_gt (token : Token) (projectId : String)
    (env : Env) (nowMs : Nat) (vs : Option Int)
    (hbody : (validateJwtBody token.body projectId nowMs).isValid = true)
    (hheader : ∃ hr ev, validateJwtHeader token env.kv env.keysResp = (Except.ok hr, ev) ∧
      hr.isValid = true)
    (hsig : env.jose.jwtVerifyOk = true)
    (hvs : getTokenValidSinceTime env.lookupResp = Except.ok vs) :
    ((verifyIdTokenHandler token projectId env (some true) nowMs).1 =
        Except.error "Token is revoked" ↔
      (jsTruthy token.body.iat ∧ numGtJs vs token.body.iat)) ∧
    (¬ (jsTruthy token.body.iat ∧ numGtJs vs token.body.iat) →
      (verifyIdTokenHandler token projectId env (some true) nowMs).1 =
        Except.ok (some token.body)) := by
  obtain ⟨hr, ev, heq, hvalid⟩ := hheader
  unfold verifyIdTokenHandler
  rw [heq]
  simp only [hbody, hvalid, verifyToken, hsig, hvs, if_true, not_true, if_false]
  by_cases hc : jsTruthy token.body.iat ∧ numGtJs vs token.body.iat
  · simp [hc]
  · simp [hc]

/-- A token with `iat = 5` over otherwise valid claims. -/
def iatFiveToken : Token :=
  { header := { alg := some "RS256", kid := some "kid1" }
    body := { sampleBody with iat := JSValue.num 5 } }

/-- Environment where the account lookup reports `validSince` 99. -/
def revokedEnv : Env :=
  { keysResp := { keys := sampleKeys }
    jose := { jwtVerifyOk := true }
    lookupResp := { users := [{ validSince := some "99" }] } }

theorem revoked_iff_truthy_iat_witness :
    (((verifyIdTokenHandler iatFiveToken "demo-project" revokedEnv (some true) 5000).1 =
        Except.error "Token is revoked" ↔
      (jsTruthy iatFiveToken.body.iat ∧ numGtJs (some 99) iatFiveToken.body.iat)) ∧
    (¬ (jsTruthy iatFiveToken.body.iat ∧ numGtJs (some 99) iatFiveToken.body.iat) →
      (verifyIdTokenHandler iatFiveToken "demo-project" revokedEnv (some true) 5000).1 =
        Except.ok (some iatFiveToken.body))) :=
  revoked_iff_truthy_iat_and_validSince_gt iatFiveToken "demo-project" revokedEnv 5000
    (some 99) rfl ⟨⟨true, none, some "CERT"⟩, [IoEvent.fetchKeys], rfl, rfl⟩ rfl rfl

/-- A KV store whose next put throws. -/
def putFailKV : KVNamespace :=
  { get := fun _ => none, putOutcome := some "KV put failed" }

/-- Key-source response advertising a one-hour cache lifetime. -/
def maxAgeResp : KeysFetchResponse :=
  { keys := sampleKeys, cacheControl := some "max-age=3600" }

/-- Claim C4 counterexample: when the cache put throws, the error
propagates out of `validateJwtHeader` — the verification outcome is
not `isValid := true`, so a cache-write failure does fail
verification (the source has no guard around `kv.put`). -/
theorem cache_put_failure_fails_validation :
    validateJwtHeader sampleToken (some putFailKV) maxAgeResp =
      (Except.error "KV put failed",
        [IoEvent.cacheGet "googlePublicKey-kid1", IoEvent.fetchKeys,
          IoEvent.cachePut "googlePublicKey-kid1" "CERT" 3600]) := rfl

/-- Claim C4 amended: on a cache miss whose fetch resolves the key and
advertises a positive cache duration, a failing cache put makes
`validateJwtHeader` reject with the put error instead of returning
the resolved key. -/
theorem cache_put_failure_propagates (token : Token) (store : KVNamespace)
    (resp : KeysFetchResponse) (cert e : String)
    (halg : token.header.alg = some "RS256")
    (hmiss : optTruthy (store.get ("googlePublicKey-" ++ kidString token.header)) = false)
    (hkey : (getGooglePublicKeys resp).keys (kidString token.header) = some cert)
    (hcert : cert ≠ "")
    (hdur : optGtZero (getGooglePublicKeys resp).cache_duration = true)
    (hput : store.putOutcome = some e) :
    (validateJwtHeader token (some store) resp).1 = Except.error e := by
  have htc : optTruthy (some cert) = true := by simp [optTruthy, hcert]
  unfold validateJwtHeader fetchAndCachePath
  simp [halg, hmiss, hkey, htc, hdur, hput]

theorem cache_put_failure_propagates_witness :
    (validateJwtHeader sampleToken (some putFailKV) maxAgeResp).1 =
      Except.error "KV put failed" :=
  cache_put_failure_propagates sampleToken putFailKV maxAgeResp "CERT" "KV put failed"
    rfl rfl rfl (by decide) rfl rfl

/-- A KV store caching the empty string under the kid1 cache key. -/
def emptyCacheKV : KVNamespace :=
  { get := fun k => if k = "googlePublicKey-kid1" then some "" else none }

/-- A key-source response resolving kid1 to a fetched certificate. -/
def fetchedResp : KeysFetchResponse :=
  { keys := fun k => if k = "kid1" then some "FETCHED" else none }

/-- Claim C5 counterexample: the cache holds a non-null value (the
empty string) for the derived key, yet the key-source fetch still
happens and its certificate is returned — the hit test is JavaScript
truthiness, not a null check. -/
theorem empty_cached_value_triggers_fetch :
    emptyCacheKV.get "googlePublicKey-kid1" = some "" ∧
    validateJwtHeader sampleToken (some emptyCacheKV) fetchedResp =
      (Except.ok { isValid := true, signingKey := some "FETCHED" },
        [IoEvent.cacheGet "googlePublicKey-kid1", IoEvent.fetchKeys]) :=
  ⟨rfl, rfl⟩

/-- Claim C5 amended: when the supplied cache holds a non-empty value
for the derived key of an RS256 token, that cached certificate is
returned as the signing key and the trace shows the single cache read
— no fetch and no cache write. -/
theorem cache_hit_returns_cached_key_without_fetch (token : Token) (store : KVNamespace)
    (resp : KeysFetchResponse) (v : String)
    (halg : token.header.alg = some "RS256")
    (hget : store.get ("googlePublicKey-" ++ kidString token.header) = some v)
    (hne : v ≠ "") :
    validateJwtHeader token (some store) resp =
      (Except.ok { isValid := true, signingKey := some v },
        [IoEvent.cacheGet ("googlePublicKey-" ++ kidString token.header)]) := by
  unfold validateJwtHeader
  simp [halg, hget, optTruthy, hne]

/-- A KV store caching a certificate under the kid1 cache key. -/
def cachedKV : KVNamespace :=
  { get := fun k => if k = "googlePublicKey-kid1" then some "CACHEDCERT" else none }

theorem cache_hit_witness_example :
    validateJwtHeader sampleToken (some cachedKV) fetchedResp =
      (Except.ok { isValid := true, signingKey := some "CACHEDCERT" },
        [IoEvent.cacheGet ("googlePublicKey-" ++ kidString sampleToken.header)]) :=
  cache_hit_returns_cached_key_without_fetch sampleToken cachedKV fetchedResp "CACHEDCERT"
    rfl rfl (by decide)

/-- Claim C6: on a cache miss with the kid resolved, a response
advertising `max-age=3600` makes the certificate be stored under the
derived key with TTL 3600 before the key is returned; and whenever the
parsed cache duration is not positive (an absent header parses to 0),
no cache write occurs. -/
theorem cache_population_respects_ttl (token : Token) (store : KVNamespace)
    (resp : KeysFetchResponse) (cert : String) :
    (token.header.alg = some "RS256" →
      optTruthy (store.get ("googlePublicKey-" ++ kidString token.header)) = false →
      (getGooglePublicKeys resp).keys (kidString token.header) = some cert →
      cert ≠ "" →
      resp.cacheControl = some "max-age=3600" →
      store.putOutcome = none →
      validateJwtHeader token (some store) resp =
        (Except.ok { isValid := true, signingKey := some cert },
          [IoEvent.cacheGet ("googlePublicKey-" ++ kidString token.header), IoEvent.fetchKeys,
            IoEvent.cachePut ("googlePublicKey-" ++ kidString token.header) cert 3600])) ∧
    (token.header.alg = some "RS256" →
      optTruthy (store.get ("googlePublicKey-" ++ kidString token.header)) = false →
      (getGooglePublicKeys resp).keys (kidString token.header) = some cert →
      cert ≠ "" →
      optGtZero (getGooglePublicKeys resp).cache_duration = false →
      validateJwtHeader token (some store) resp =
        (Except.ok { isValid := true, signingKey := some cert },
          [IoEvent.cacheGet ("googlePublicKey-" ++ kidString token.header),
            IoEvent.fetchKeys])) := by
  constructor
  · intro halg hmiss hkey hcert hcc hput
    have hdur : (getGooglePublicKeys resp).cache_duration = some 3600 := by
      simp only [getGooglePublicKeys, hcc]
      rfl
    have htc : optTruthy (some cert) = true := by simp [optTruthy, hcert]
    have hgt : optGtZero (some (3600 : Int)) = true := by decide
    unfold validateJwtHeader fetchAndCachePath
    simp [halg, hmiss, hkey, htc, hdur, hgt, hput]
  · intro halg hmiss hkey hcert hdur
    have htc : optTruthy (some cert) = true := by simp [optTruthy, hcert]
    unfold validateJwtHeader fetchAndCachePath
    simp [halg, hmiss, hkey, htc, hdur]

/-- A KV store with no cached values and working writes. -/
def missKV : KVNamespace := { get := fun _ => none }

/-- A key-source response with no cache-control header. -/
def noCacheResp : KeysFetchResponse := { keys := sampleKeys }

theorem cache_population_respects_ttl_witness :
    (validateJwtHeader sampleToken (some missKV) maxAgeResp =
      (Except.ok { isValid := true, signingKey := some "CERT" },
        [IoEvent.cacheGet "googlePublicKey-kid1", IoEvent.fetchKeys,
          IoEvent.cachePut "googlePublicKey-kid1" "CERT" 3600])) ∧
    (validateJwtHeader sampleToken (some missKV) noCacheResp =
      (Except.ok { isValid := true, signingKey := some "CERT" },
        [IoEvent.cacheGet "googlePublicKey-kid1", IoEvent.fetchKeys])) :=
  ⟨(cache_population_respects_ttl sampleToken missKV maxAgeResp "CERT").1
      rfl rfl rfl (by decide) rfl rfl,
   (cache_population_respects_ttl sampleToken missKV noCacheResp "CERT").2
      rfl rfl rfl (by decide) rfl⟩

/-- Strings of different lengths are different. -/
theorem string_ne_of_length_ne (s t : String) (h : s.length ≠ t.length) : s ≠ t :=
  fun he => h (by rw [he])

/-- An interpolated message with a long fixed part differs from a
short fixed message. -/
theorem interp_ne_target (p a m b t : String) (hlen : t.length < p.length + m.length) :
    p ++ a ++ m ++ b ≠ t := by
  apply string_ne_of_length_ne
  simp only [String.length_append]
  omega

/-- Only the expiry check produces the expiry message, and it fires
only on a truthy `exp`. -/
theorem exp_msg_requires_truthy_exp (body : DecodedIdToken) (projectId : String) (nowMs : Nat)
    (h : (validateJwtBody body projectId nowMs).errorMessage =
      some "Token expiration date is in the past") :
    jsTruthy body.exp = true := by
  simp only [validateJwtBody] at h
  split_ifs at h
  all_goals
    first
    | exact And.left
        ‹jsTruthy body.exp = true ∧ jsLtNum body.exp (currentUnixSeconds nowMs) = true›
    | exact absurd (Option.some.inj h) (by decide)
    | exact absurd (Option.some.inj h) (interp_ne_target _ _ _ _ _ (by decide))

/-- Only the issued-at check produces the issued-at message, and it
fires only on a truthy `iat`. -/
theorem iat_msg_requires_truthy_iat (body : DecodedIdToken) (projectId : String) (nowMs : Nat)
    (h : (validateJwtBody body projectId nowMs).errorMessage =
      some "Token issued at date is in the future") :
    jsTruthy body.iat = true := by
  simp only [validateJwtBody] at h
  split_ifs at h
  all_goals
    first
    | exact And.left
        ‹jsTruthy body.iat = true ∧ jsGtNum body.iat (currentUnixSeconds nowMs) = true›
    | exact absurd (Option.some.inj h) (by decide)
    | exact absurd (Option.some.inj h) (interp_ne_target _ _ _ _ _ (by decide))

/-- A falsy `exp` is interchangeable with an absent one. -/
theorem validateJwtBody_exp_irrelevant (body : DecodedIdToken) (projectId : String)
    (nowMs : Nat) (h : jsTruthy body.exp = false) :
    validateJwtBody body projectId nowMs =
      validateJwtBody { body with exp := JSValue.undef } projectId nowMs := by
  have hu : jsTruthy JSValue.undef = false := rfl
  simp [validateJwtBody, h, hu]

/-- A falsy `iat` is interchangeable with an absent one. -/
theorem validateJwtBody_iat_irrelevant (body : DecodedIdToken) (projectId : String)
    (nowMs : Nat) (h : jsTruthy body.iat = false) :
    validateJwtBody body projectId nowMs =
      validateJwtBody { body with iat := JSValue.undef } projectId nowMs := by
  have hu : jsTruthy JSValue.undef = false := rfl
  simp [validateJwtBody, h, hu]

/-- Claim C10: presence of the numeric time claims is tested by
JavaScript truthiness, so `exp = 0` (resp. `iat = 0`) behaves exactly
as an absent claim: body validation is unchanged by replacing the zero
with `undefined` and can never fail with the expiry (resp. issued-at)
message. -/
theorem zero_exp_iat_checks_skipped (body : DecodedIdToken) (projectId : String)
    (nowMs : Nat) :
    (body.exp = JSValue.num 0 →
      validateJwtBody body projectId nowMs =
        validateJwtBody { body with exp := JSValue.undef } projectId nowMs ∧
      (validateJwtBody body projectId nowMs).errorMessage ≠
        some "Token expiration date is in the past") ∧
    (body.iat = JSValue.num 0 →
      validateJwtBody body projectId nowMs =
        validateJwtBody { body with iat := JSValue.undef } projectId nowMs ∧
      (validateJwtBody body projectId nowMs).errorMessage ≠
        some "Token issued at date is in the future") := by
  constructor
  · intro hexp
    have ht : jsTruthy body.exp = false := by rw [hexp]; rfl
    refine ⟨validateJwtBody_exp_irrelevant body projectId nowMs ht, fun hmsg => ?_⟩
    have := exp_msg_requires_truthy_exp body projectId nowMs hmsg
    rw [ht] at this
    exact Bool.noConfusion this
  · intro hiat
    have ht : jsTruthy body.iat = false := by rw [hiat]; rfl
    refine ⟨validateJwtBody_iat_irrelevant body projectId nowMs ht, fun hmsg => ?_⟩
    have := iat_msg_requires_truthy_iat body projectId nowMs hmsg
    rw [ht] at this
    exact Bool.noConfusion this

/-- A body, otherwise valid for `demo-project`, whose `exp` and `iat`
are both the number 0. -/
def zeroTimesBody : DecodedIdToken :=
  { sampleBody with exp := JSValue.num 0, iat := JSValue.num 0 }

theorem zero_exp_iat_checks_skipped_witness :
    (validateJwtBody zeroTimesBody "demo-project" 5000 =
        validateJwtBody { zeroTimesBody with exp := JSValue.undef } "demo-project" 5000 ∧
      (validateJwtBody zeroTimesBody "demo-project" 5000).errorMessage ≠
        some "Token expiration date is in the past") ∧
    (validateJwtBody zeroTimesBody "demo-project" 5000 =
        validateJwtBody { zeroTimesBody with iat := JSValue.undef } "demo-project" 5000 ∧
      (validateJwtBody zeroTimesBody "demo-project" 5000).errorMessage ≠
        some "Token issued at date is in the future") :=
  ⟨(zero_exp_iat_checks_skipped zeroTimesBody "demo-project" 5000).1 rfl,
   (zero_exp_iat_checks_skipped zeroTimesBody "demo-project" 5000).2 rfl⟩

end CloudfireAuth
